import Mathlib

/-!
Verification of the Tank engine/app/framework lifecycle loader
(`tank/platform/engine.py`, `tank/platform/framework.py`,
`scripts/install_engine.py`).

The Python source is shallowly embedded: each method becomes a Lean
function over explicit state, and each call into an excluded collaborator
module (descriptor resolution, the `validation` module, the environment
layer, `application.get_application`, `setup_frameworks`, hooks) becomes
an oracle field recording whether that call returns normally or raises,
since only control flow through `engine.py` depends on it.  Python
exceptions are values of `PyExc`; a raising call is `some e`, a normal
return is `none`.  Logging calls made by `engine.py` are recorded as
structured events (one constructor per call site), because the logging
methods are engine-overridable delegation points.
-/

namespace Tank

/-- Python exception values relevant to the embedded code.
`tankError` models `TankError`, `tankEngineInitError` models
`TankEngineInitError` (a subclass of `TankError` in `tank.errors`, so an
`except TankError` clause catches both), and `otherError` models any
other exception deriving from `Exception`. -/
inductive PyExc where
  | tankError (msg : String)
  | tankEngineInitError (msg : String)
  | otherError (msg : String)
deriving DecidableEq, Repr

/-- Whether an `except TankError` clause catches this exception. -/
def PyExc.isTankError : PyExc → Bool
  | .tankError _ => true
  | .tankEngineInitError _ => true
  | .otherError _ => false

/-- The message carried by the exception (its `str()`). -/
def PyExc.msg : PyExc → String
  | .tankError m => m
  | .tankEngineInitError m => m
  | .otherError m => m

/-- Outcome of a Python call that is used only for its effect:
`none` means the call returned normally, `some e` means it raised `e`. -/
abbrev Outcome := Option PyExc

/-- An Application object, identified by an id (object identity). -/
structure App where
  id : Nat
deriving DecidableEq, Repr

/-- Content semantics of a Python dict represented by the sequence of its
`d[k] = v` store operations: lookup returns the value of the last store
for the key, `none` if the key was never stored. -/
def pyGet {V : Type} (l : List (String × V)) (k : String) : Option V :=
  l.foldl (fun acc p => if p.fst = k then some p.snd else acc) Option.none

/-- A Python dict store operation `d[k] = v`, recorded in sequence. -/
def pySet {V : Type} (l : List (String × V)) (k : String) (v : V) :
    List (String × V) :=
  l ++ [(k, v)]

/-! ## App loading (`Engine.__load_apps`, engine.py lines 399-472)

One `AppSpec` per app instance declared in the environment, holding the
values/outcomes of the collaborator calls made for that app, in the order
the loop performs them.  `except Exception` clauses in the source match
any `PyExc`; exceptions not deriving from `Exception` (`SystemExit`,
`KeyboardInterrupt`) are outside the model. -/

/-- The collaborator data and call outcomes for one declared app instance:

* `existsLocal` — `descriptor.exists_local()` (line 407)
* `getSchema` — `descriptor.get_configuration_schema()` (line 414)
* `getSettings` — `env.get_app_settings(...)` (line 415)
* `validateContext` — `validation.validate_context(descriptor, self.context)` (line 418)
* `validatePlatform` — `validation.validate_platform(descriptor)` (line 421)
* `supportedEngines` — `descriptor.get_supported_engines()` (line 424);
  the empty list models Python-falsy (`None` or `[]`)
* `validateSettings` — `validation.validate_settings(...)` (line 430)
* `path` — `descriptor.get_path()` (line 452)
* `getApplication` — `application.get_application(...)` (line 455)
* `setupFrameworks` — `setup_frameworks(self, app, ...)` (line 458)
* `initApp` — `app.init_app()` (line 463) -/
structure AppSpec where
  existsLocal : Bool
  getSchema : Outcome
  getSettings : Outcome
  validateContext : Outcome
  validatePlatform : Outcome
  supportedEngines : List String
  validateSettings : Outcome
  path : String
  getApplication : Except PyExc App
  setupFrameworks : Outcome
  initApp : Outcome

/-- Structured log events, one constructor per logging call site in
`__load_apps` (the format strings quoted from the source):

* `appNotLocal` — `log_error("Cannot start app! %s does not exist on disk.")`, line 408
* `appConfigError` — `log_error("App configuration Error for %s. It will not be loaded. ...")`, line 436
* `appValidationException` — `log_exception("A general exception was caught while trying to validate ...")`, line 443
* `appInitFailed` — `log_exception("App %s failed to initialize - it will not be loaded ...")`
  with `%s` the app directory, line 467 -/
inductive LogCall where
  | appNotLocal (appName : String)
  | appConfigError (appName : String) (e : PyExc)
  | appValidationException (appName : String) (e : PyExc)
  | appInitFailed (appDir : String) (e : PyExc)
deriving DecidableEq, Repr

/-- The engine-held state that `__load_apps` reads and writes:
`applications` is the sequence of stores into the `self.__applications`
dict, `currentlyInitializingApp` is `self.__currently_initializing_app`,
`log` records the logging calls made. -/
structure LoadState where
  applications : List (String × App)
  currentlyInitializingApp : Option App
  log : List LogCall
deriving Repr

/-- State as set up at the top of `Engine.__init__` (lines 42-44):
`self.__applications = {}` and `self.__currently_initializing_app = None`. -/
def initLoadState : LoadState :=
  { applications := [], currentlyInitializingApp := Option.none, log := [] }

/-- The first exception raised inside the validation `try` block
(lines 412-430), in source order.  The engine-support check (lines
424-427) is the one piece of validation logic implemented inline:
`if supported_engines and self.name not in supported_engines: raise
TankError(...)`; `engineName` is `self.name`, the engine descriptor short
name. -/
def appValidationFailure (engineName : String) (s : AppSpec) : Outcome :=
  s.getSchema <|> s.getSettings <|> s.validateContext <|> s.validatePlatform <|>
    (if !s.supportedEngines.isEmpty && !(s.supportedEngines.contains engineName)
      then some (PyExc.tankError "The app could not be loaded since it only supports the following engines")
      else Option.none) <|>
    s.validateSettings

/-- One iteration of the `__load_apps` loop for app instance `p.fst` with
collaborator data `p.snd`, mirroring the source control flow:

1. not local on disk: `log_error`, `continue` (lines 407-409);
2. validation `try`: a `TankError` goes to `log_error` + `continue`
   (lines 433-438), any other exception to `log_exception` + `continue`
   (lines 440-446);
3. load `try` (lines 450-468): `get_application` / `setup_frameworks`
   failures are caught by the `except Exception` clause before the
   initializing-app marker is set; around `init_app` the marker is set and
   reset in a `try`/`finally` (lines 461-465); on any failure
   `log_exception` and skip, on success store the app under its instance
   name (line 472). -/
def processApp (engineName : String) (st : LoadState) (p : String × AppSpec) :
    LoadState :=
  if !p.snd.existsLocal then
    { st with log := st.log ++ [LogCall.appNotLocal p.fst] }
  else
    match appValidationFailure engineName p.snd with
    | some e =>
      if e.isTankError then
        { st with log := st.log ++ [LogCall.appConfigError p.fst e] }
      else
        { st with log := st.log ++ [LogCall.appValidationException p.fst e] }
    | Option.none =>
      match p.snd.getApplication with
      | Except.error e =>
        { st with log := st.log ++ [LogCall.appInitFailed p.snd.path e] }
      | Except.ok app =>
        match p.snd.setupFrameworks with
        | some e =>
          { st with log := st.log ++ [LogCall.appInitFailed p.snd.path e] }
        | Option.none =>
          match p.snd.initApp with
          | some e =>
            { st with log := st.log ++ [LogCall.appInitFailed p.snd.path e],
                      currentlyInitializingApp := Option.none }
          | Option.none =>
            { st with applications := st.applications ++ [(p.fst, app)],
                      currentlyInitializingApp := Option.none }

/-- `Engine.__load_apps`: iterate over the app instances declared in the
environment for this engine (`self.__env.get_apps(...)`, line 403), in
declaration order. -/
def loadApps (engineName : String) (l : List (String × AppSpec))
    (st : LoadState) : LoadState :=
  l.foldl (processApp engineName) st

/-- The app object stored for this app instance, `none` if the instance
is skipped at any stage of `processApp`. -/
def appOutcome (engineName : String) (s : AppSpec) : Option App :=
  if !s.existsLocal then Option.none
  else
    match appValidationFailure engineName s with
    | some _ => Option.none
    | Option.none =>
      match s.getApplication with
      | Except.error _ => Option.none
      | Except.ok app =>
        match s.setupFrameworks with
        | some _ => Option.none
        | Option.none =>
          match s.initApp with
          | some _ => Option.none
          | Option.none => some app

/-- The store into `self.__applications` made for this app instance
(empty if it is skipped). -/
def appEntry (engineName : String) (p : String × AppSpec) :
    List (String × App) :=
  match appOutcome engineName p.snd with
  | some app => [(p.fst, app)]
  | Option.none => []

/-- The logging calls made for this app instance. -/
def appLogEvents (engineName : String) (p : String × AppSpec) :
    List LogCall :=
  if !p.snd.existsLocal then [LogCall.appNotLocal p.fst]
  else
    match appValidationFailure engineName p.snd with
    | some e =>
      if e.isTankError then [LogCall.appConfigError p.fst e]
      else [LogCall.appValidationException p.fst e]
    | Option.none =>
      match p.snd.getApplication with
      | Except.error e => [LogCall.appInitFailed p.snd.path e]
      | Except.ok _ =>
        match p.snd.setupFrameworks with
        | some e => [LogCall.appInitFailed p.snd.path e]
        | Option.none =>
          match p.snd.initApp with
          | some e => [LogCall.appInitFailed p.snd.path e]
          | Option.none => []

/-- Whether the iteration reaches the `try`/`finally` around `init_app`
(and hence resets the initializing-app marker to `None`). -/
def reachesInitApp (engineName : String) (s : AppSpec) : Bool :=
  s.existsLocal && (appValidationFailure engineName s).isNone &&
    (match s.getApplication with
      | Except.error _ => false
      | Except.ok _ => true) &&
    s.setupFrameworks.isNone

/-- Whether the loop skips this app: the app is missing on disk, or fails
one of the validation steps, or construction / framework setup /
`init_app` raises. -/
def appFails (engineName : String) (s : AppSpec) : Bool :=
  !s.existsLocal || (appValidationFailure engineName s).isSome ||
    (match s.getApplication with
      | Except.error _ => true
      | Except.ok _ => false) ||
    s.setupFrameworks.isSome || s.initApp.isSome

/-! ## Command registry (`Engine.register_command`, engine.py lines 224-235) -/

/-- A value stored in a command properties dict: either the `"app"` tag
(line 234 stores the Application object itself) or an opaque
caller-supplied value. -/
inductive PropVal where
  | appRef (a : App)
  | userVal (n : Nat)
deriving DecidableEq, Repr

/-- One entry of `self.__commands`:
`{ "callback": callback, "properties": properties }` (line 235). -/
structure CommandEntry where
  callback : Nat
  properties : List (String × PropVal)
deriving DecidableEq, Repr

/-- The engine state observable through the public API after
construction: the `self.__applications` store sequence, the
`self.__commands` dict (as its lookup function), the
`self.__currently_initializing_app` marker and the logging calls made. -/
structure EngineObj where
  applications : List (String × App)
  commands : String → Option CommandEntry
  currentlyInitializingApp : Option App
  logCalls : List LogCall

/-- The engine state at the end of `Engine.__init__`: apps and marker
from `__load_apps`, `self.__commands = {}` (line 43). -/
def engineOfLoad (st : LoadState) : EngineObj :=
  { applications := st.applications,
    commands := fun _ => Option.none,
    currentlyInitializingApp := st.currentlyInitializingApp,
    logCalls := st.log }

/-- `Engine.register_command(name, callback, properties=None)`:

    if properties is None: properties = {}
    if self.__currently_initializing_app is not None:
        properties["app"] = self.__currently_initializing_app
    self.__commands[name] = { "callback": callback, "properties": properties }

The commands dict is updated at `name` (last write wins on collision,
no uniqueness check). -/
def register_command (eng : EngineObj) (name : String) (callback : Nat)
    (properties : Option (List (String × PropVal))) : EngineObj :=
  let props0 := properties.getD []
  let props :=
    match eng.currentlyInitializingApp with
    | some a => pySet props0 "app" (PropVal.appRef a)
    | Option.none => props0
  { eng with
    commands := fun n =>
      if n = name then some { callback := callback, properties := props }
      else eng.commands n }

/-! ## Engine construction (`Engine.__init__`, engine.py lines 30-103) -/

/-- Call outcomes of the collaborator calls made by `Engine.__init__`, in
source order:

* `preamble` — `env.get_engine_settings` / `env.get_engine_descriptor` /
  `TankBundle.__init__` (lines 48-54)
* `validateContext` — `validation.validate_context(descriptor, context)` (line 57)
* `validatePlatform` — `validation.validate_platform(descriptor)` (line 60)
* `validateSettings` — `descriptor.get_configuration_schema()` +
  `validation.validate_settings(...)` (lines 63-64)
* `setupFrameworks` — `setup_frameworks(self, self, env, descriptor)` (line 67)
* `initEngine` — `self.init_engine()` (line 91; `pass` in the base class,
  overridable)
* `engineName` — `self.name` (descriptor short name, used by the
  engine-support check in `__load_apps`)
* `envApps` — the app instances declared for this engine, with their
  collaborator data
* `postAppInit` — `self.post_app_init()` (line 97)
* `initCompleteHook` — `tk.execute_hook(TANK_ENGINE_INIT_HOOK_NAME, ...)` (line 100)

The Qt lookup (lines 84-88) and python-path handling (lines 73-82)
either catch their own exceptions or only touch `sys.path`, so they do
not appear. -/
structure EngineInitBehavior where
  preamble : Outcome
  validateContext : Outcome
  validatePlatform : Outcome
  validateSettings : Outcome
  setupFrameworks : Outcome
  initEngine : Outcome
  engineName : String
  envApps : List (String × AppSpec)
  postAppInit : Outcome
  initCompleteHook : Outcome

/-- The first failure among the three schema validations performed by
`Engine.__init__` (lines 57-64). -/
def firstEngineValidationFailure (b : EngineInitBehavior) : Outcome :=
  b.validateContext <|> b.validatePlatform <|> b.validateSettings

/-- `Engine.__init__` as a fallible construction: it runs its stages in
order, propagating the first exception; no caller catches exceptions
around it, and the constructed engine object only exists on success. -/
def engineInit (b : EngineInitBehavior) : Except PyExc EngineObj :=
  match b.preamble with
  | some e => Except.error e
  | Option.none =>
  match b.validateContext with
  | some e => Except.error e
  | Option.none =>
  match b.validatePlatform with
  | some e => Except.error e
  | Option.none =>
  match b.validateSettings with
  | some e => Except.error e
  | Option.none =>
  match b.setupFrameworks with
  | some e => Except.error e
  | Option.none =>
  match b.initEngine with
  | some e => Except.error e
  | Option.none =>
  let st := loadApps b.engineName b.envApps initLoadState
  match b.postAppInit with
  | some e => Except.error e
  | Option.none =>
  match b.initCompleteHook with
  | some e => Except.error e
  | Option.none => Except.ok (engineOfLoad st)

/-! ## Engine management (`engine.py` lines 485-582) -/

/-- The process-wide module state: `g_current_engine` (line 488). -/
structure GlobalState where
  currentEngine : Option EngineObj

/-- `set_current_engine(eng)` (lines 490-495). -/
def set_current_engine (g : GlobalState) (eng : Option EngineObj) :
    GlobalState :=
  { g with currentEngine := eng }

/-- `current_engine()` (lines 497-502). -/
def current_engine (g : GlobalState) : Option EngineObj :=
  g.currentEngine

/-- The message of the `TankError` raised by `start_engine` when an
engine is already running (lines 514-516). -/
def engineAlreadyRunningMsg : String :=
  "An engine is already running! Before you can start a new engine, please shut down the previous one using the command tank.platform.current_engine().destroy()."

/-- Inputs and collaborator outcomes of one `start_engine` call:

* `engineName` — the `engine_name` argument
* `isShotgunEngine` — `engine_name in constants.SHOTGUN_ENGINES` (line 563)
* `pickEnvHook` — outcome of
  `tk.execute_hook(PICK_ENVIRONMENT_CORE_HOOK_NAME, ...)` (line 567):
  raises, or returns `None`, or returns an environment name
* `envLoad` — `Environment(env_path)` (line 526)
* `envEngines` — `env.get_engines()` (line 529)
* `engineExistsLocal` — `engine_descriptor.exists_local()` (line 536)
* `loadPlugin` — `loader.load_plugin(plugin_file, Engine)` (line 544)
* `init` — the behavior of the engine class constructor (line 545) -/
structure StartEngineBehavior where
  engineName : String
  isShotgunEngine : Bool
  pickEnvHook : Except PyExc (Option String)
  envLoad : Outcome
  envEngines : List String
  engineExistsLocal : Bool
  loadPlugin : Outcome
  init : EngineInitBehavior

/-- `__pick_environment(engine_name, tk, context)` (lines 555-582):
Shotgun engines short-circuit to the fixed Shotgun environment; a hook
exception or a `None` result are both converted to
`TankEngineInitError`. -/
def pickEnvironment (b : StartEngineBehavior) : Except PyExc String :=
  if b.isShotgunEngine then Except.ok "shotgun"
  else
    match b.pickEnvHook with
    | Except.error _ =>
      Except.error (PyExc.tankEngineInitError
        "the pick environment hook reported an error")
    | Except.ok Option.none =>
      Except.error (PyExc.tankEngineInitError
        "the pick environment hook was not able to return an environment to use")
    | Except.ok (some n) => Except.ok n

/-- `start_engine(engine_name, tk, context)` (lines 504-550): fail fast
if an engine is current; resolve the environment; load it; check the
engine instance exists in it and locally on disk; load the plugin class;
construct the engine; only then `set_current_engine(obj)` and return the
object. -/
def start_engine (b : StartEngineBehavior) (g : GlobalState) :
    Except PyExc EngineObj × GlobalState :=
  match current_engine g with
  | some _ => (Except.error (PyExc.tankError engineAlreadyRunningMsg), g)
  | Option.none =>
    match pickEnvironment b with
    | Except.error e => (Except.error e, g)
    | Except.ok _ =>
      match b.envLoad with
      | some e => (Except.error e, g)
      | Option.none =>
        if b.engineName ∈ b.envEngines then
          if b.engineExistsLocal then
            match b.loadPlugin with
            | some e => (Except.error e, g)
            | Option.none =>
              match engineInit b.init with
              | Except.error e => (Except.error e, g)
              | Except.ok obj => (Except.ok obj, set_current_engine g (some obj))
          else
            (Except.error (PyExc.tankEngineInitError
              "Cannot start engine! It does not exist on disk"), g)
        else
          (Except.error (PyExc.tankEngineInitError
            "Cannot find an engine instance in the environment"), g)

/-- The stages of `start_engine` that run before the engine constructor
reaches its validation calls all succeed. -/
def preValidationOk (b : StartEngineBehavior) : Prop :=
  (∃ n, pickEnvironment b = Except.ok n) ∧ b.envLoad = Option.none ∧
    b.engineName ∈ b.envEngines ∧ b.engineExistsLocal = true ∧
    b.loadPlugin = Option.none ∧ b.init.preamble = Option.none

/-! ## Teardown (`Engine.destroy` lines 197-212, `Engine.__destroy_apps`
lines 474-482)

The teardown calls are recorded as a trace of events in the order the
source makes them.  `self.frameworks.values()` and
`self.__applications.values()` are Python dict value views whose order
the language does not fix, so both are parameters (lists of framework
names / app instance names). -/

/-- One teardown call:

* `frameworkDestroyed` — `fw._destroy_framework()` (line 204)
* `appFrameworksDestroyed` — `app._destroy_frameworks()` (line 480)
* `appDestroyed` — `app.destroy_app()` (line 482)
* `engineDestroyed` — `self.destroy_engine()` (line 209) -/
inductive TeardownEvent where
  | frameworkDestroyed (fw : String)
  | appFrameworksDestroyed (app : String)
  | appDestroyed (app : String)
  | engineDestroyed
deriving DecidableEq, Repr

/-- The loop `for fw in self.frameworks.values(): fw._destroy_framework()`
(lines 203-204). -/
def destroyFrameworksLoop : List String → List TeardownEvent
  | [] => []
  | f :: r => TeardownEvent.frameworkDestroyed f :: destroyFrameworksLoop r

/-- `Engine.__destroy_apps` (lines 474-482): for each loaded app,
`app._destroy_frameworks()` then `app.destroy_app()`. -/
def destroyAppsLoop : List String → List TeardownEvent
  | [] => []
  | a :: r =>
    TeardownEvent.appFrameworksDestroyed a :: TeardownEvent.appDestroyed a ::
      destroyAppsLoop r

/-- `Engine.destroy` (lines 197-212): engine-level frameworks, then
`self.__destroy_apps()`, then `self.destroy_engine()`, then
`set_current_engine(None)`.  Returns the trace of teardown calls and the
updated module state. -/
def engineDestroy (frameworks : List String) (apps : List String)
    (g : GlobalState) : List TeardownEvent × GlobalState :=
  (destroyFrameworksLoop frameworks ++ destroyAppsLoop apps ++
      [TeardownEvent.engineDestroyed],
    set_current_engine g Option.none)

/-! ## The applications dict of CPython 2 (for the iteration-order claim)

`self.__applications` is a plain Python 2 dict.  In CPython 2 (the only
interpreter this Python-2-syntax code runs on; hash randomization is off
by default) a dict with fewer than 6 entries is an 8-slot open-addressing
hash table, and iteration enumerates slots in table order — not insertion
order.  The model below implements CPython 2.7 `string_hash` and the
`lookdict` probe sequence exactly, on a fixed 8-slot table (valid while
no resize happens, i.e. at most 5 live entries, and no deletions — which
covers the loader, which only ever stores). -/

/-- CPython 2.7 `string_hash` on a 64-bit build, computed in `Nat`
modulo `2 ^ 64` (C `long` arithmetic; the low 3 bits, which pick the
slot in an 8-slot table, are identical on 32-bit builds):

    x = s[0] << 7
    for c in s: x = (1000003 * x) ^ c
    x ^= len(s);  if x == -1: x = -2 -/
def py2StringHash (s : String) : Nat :=
  match s.data with
  | [] => 0
  | _ :: _ =>
    let M : Nat := 2 ^ 64
    let x0 : Nat := (s.data.headD (Char.ofNat 0)).toNat <<< 7 % M
    let x1 : Nat := s.data.foldl (fun x c => ((1000003 * x) % M) ^^^ c.toNat) x0
    let x2 : Nat := x1 ^^^ s.length
    if x2 = M - 1 then M - 2 else x2

/-- The CPython 2.7 `lookdict` probe: starting from `i = hash & mask`
with `perturb = hash`, repeat `i = 5*i + perturb + 1; perturb >>= 5`,
visiting slot `i & mask`; stop at the first slot that is empty or holds
the key.  `fuel` bounds the walk (64 is ample for a table that is never
more than 5/8 full). -/
def py2ProbeFind {V : Type} (slots : List (Option (String × V)))
    (key : String) : Nat → Nat → Nat → Option Nat
  | 0, _, _ => Option.none
  | fuel + 1, i, perturb =>
    match slots.get? (i % 8) with
    | Option.none => Option.none
    | some Option.none => some (i % 8)
    | some (some (k, _)) =>
      if k = key then some (i % 8)
      else
        py2ProbeFind slots key fuel ((5 * i + perturb + 1) % 2 ^ 64)
          (perturb >>> 5)

/-- An 8-slot CPython 2 dict table. -/
structure Py2Dict (V : Type) where
  slots : List (Option (String × V))

/-- The empty 8-slot table. -/
def py2Empty {V : Type} : Py2Dict V :=
  { slots := List.replicate 8 Option.none }

/-- `d[key] = v`: store into the slot found by the probe sequence. -/
def Py2Dict.store {V : Type} (d : Py2Dict V) (key : String) (v : V) :
    Py2Dict V :=
  let h := py2StringHash key
  match py2ProbeFind d.slots key 64 (h % 8) h with
  | some idx => { slots := d.slots.set idx (some (key, v)) }
  | Option.none => d

/-- Replay a sequence of dict stores into a CPython 2 table. -/
def py2DictOfStores {V : Type} (l : List (String × V)) : Py2Dict V :=
  l.foldl (fun d p => d.store p.fst p.snd) py2Empty

/-- Dict iteration (`PyDict_Next`): scan the table slots in order. -/
def py2IterKeys {V : Type} (d : Py2Dict V) : List String :=
  d.slots.filterMap (fun o => o.map Prod.fst)

/-! ## `Framework.get_setting` (framework.py lines 150-157) -/

/-- Python values stored in a settings dict. -/
inductive PyVal where
  | pyNone
  | pyStr (s : String)
  | pyInt (n : Int)
deriving DecidableEq, Repr

/-- `Framework.get_setting(key, default=None)` (line 157):
`return self.__settings.get(key, default)`.  `dict.get` never raises on a
missing key; the one-argument Python call passes `PyVal.pyNone` for
`default`. -/
def get_setting (settings : List (String × PyVal)) (key : String)
    (dflt : PyVal) : PyVal :=
  (pyGet settings key).getD dflt

/-! ## `Engine.log_error` (engine.py lines 275-281) -/

/-- The two Python objects relevant to the default error logger:
`sys.stderr` itself (a file object), and its bound method
`sys.stderr.write`. -/
inductive PyCallable where
  | stderrFileObject
  | stderrWriteMethod

/-- Calling one of these objects with a string argument, per Python call
semantics: a file object is not callable, so the call raises
`TypeError: 'file' object is not callable`; the bound `write` method
writes its argument to standard error.  The result is the list of strings
written. -/
def pyCall (f : PyCallable) (arg : String) : Except PyExc (List String) :=
  match f with
  | PyCallable.stderrFileObject =>
    Except.error (PyExc.otherError "TypeError: file object is not callable")
  | PyCallable.stderrWriteMethod => Except.ok [arg]

/-- `Engine.log_error(msg)` exactly as written at line 281:
`sys.stderr("Error: %s\n" % msg)` — the file object itself is called. -/
def log_error (msg : String) : Except PyExc (List String) :=
  pyCall PyCallable.stderrFileObject ("Error: " ++ msg ++ "\n")

/-- Modelled from the spec: the documented fallback behavior of
`log_error` — "error falls back to a raw standard-error write" — i.e.
`sys.stderr.write("Error: %s\n" % msg)`, as the surrounding comment
("fall back to std out error reporting") also intends. -/
def log_error_spec (msg : String) : Except PyExc (List String) :=
  pyCall PyCallable.stderrWriteMethod ("Error: " ++ msg ++ "\n")

/-! ## The installer CLI (`scripts/install_engine.py`)

`add_engine` (lines 46-157) is modelled with its first and last log
blocks taken from the source and everything between (lines 55-149: the
environment load, App Store lookup, constraint checks and parameter
prompting, all through excluded collaborators) summarized by an
`AddEngineMiddle` record: the log lines that section emits and the
exception it raises, if any.  The `__main__` block (lines 190-216) is
modelled exactly. -/

/-- One line emitted through the `tank.add_engine` logging channel
(formatter `"%(levelname)s %(message)s"`); `withTraceback` is true for
`log.exception`, which appends the stack trace. -/
structure LogLine where
  level : String
  message : String
  withTraceback : Bool
deriving DecidableEq, Repr

/-- A `log.info` line. -/
def infoLine (m : String) : LogLine :=
  { level := "INFO", message := m, withTraceback := false }

/-- Summary of `add_engine` lines 55-149: `logs` is what that section
logs before returning or raising, `docUrl` is
`engine_descriptor.get_doc_url()` (line 154), `outcome` the exception it
raises, if any. -/
structure AddEngineMiddle where
  logs : List LogLine
  docUrl : Option String
  outcome : Outcome

/-- The opening log block of `add_engine` (lines 50-53). -/
def welcomeLogs : List LogLine :=
  [infoLine "", infoLine "", infoLine "Welcome to the Tank Engine installer!",
    infoLine ""]

/-- The closing log block of `add_engine` (lines 150-157), reached only
when no exception was raised. -/
def completionLogs (docUrl : Option String) : List LogLine :=
  [infoLine "", infoLine "", infoLine "Engine Installation Complete!",
      infoLine ""] ++
    (match docUrl with
      | some u => [infoLine ("For documentation, see " ++ u)]
      | Option.none => []) ++
    [infoLine "", infoLine ""]

/-- `add_engine(log, project_root, env_name, engine_name)`: welcome
block, middle section, and — only on normal return — the completion
block.  Result: the log lines emitted and the exception propagated. -/
def add_engine (m : AddEngineMiddle) : List LogLine × Outcome :=
  match m.outcome with
  | some e => (welcomeLogs ++ m.logs, some e)
  | Option.none =>
    (welcomeLogs ++ m.logs ++ completionLogs m.docUrl, Option.none)

/-- The usage text printed by `main` (lines 167-179) when the argument
count is wrong, with `%(cmd)s` substituted by `sys.argv[0]`. -/
def usageText (cmd : String) : String :=
  "\n\nAdds a new Engine to a Tank Environment.\n\n    Syntax:  " ++ cmd ++
    " project_root environment_name engine_name\n\n    Example: " ++ cmd ++
    " /mnt/shows/my_project rigging tk-maya\n\nThis command will download an engine from the Tank App Store and add it to\nthe specified project and environment. You will be prompted to fill in\nthe various configuration parameters that the app requires.\n"

/-- Observable result of one run of the script: process exit code, lines
emitted through the logging channel, and text printed to stdout. -/
structure CliRun where
  exitCode : Nat
  logs : List LogLine
  printed : List String
deriving DecidableEq, Repr

/-- `main(log)` (lines 162-187) plus the `__main__` block (lines
190-216): wrong argument count (`len(sys.argv) == 1 or len(sys.argv) !=
4`) prints the usage text and returns normally, so the script exits 0
with no log output; otherwise `add_engine` runs, `exit_code` is 0 only if
it returns, a `TankError` is reported by `log.error` as a one-line
message (lines 207-209) and any other exception by `log.exception` with
the call stack (lines 210-212). -/
def installEngineMain (argv : List String) (m : AddEngineMiddle) : CliRun :=
  if argv.length = 1 || argv.length ≠ 4 then
    { exitCode := 0, logs := [], printed := [usageText (argv.headD "")] }
  else
    match add_engine m with
    | (ls, Option.none) => { exitCode := 0, logs := ls, printed := [] }
    | (ls, some e) =>
      if e.isTankError then
        { exitCode := 1,
          logs := ls ++
            [{ level := "ERROR", message := "An error occurred: " ++ e.msg,
               withTraceback := false }],
          printed := [] }
      else
        { exitCode := 1,
          logs := ls ++
            [{ level := "ERROR", message := "An error occurred: " ++ e.msg,
               withTraceback := true }],
          printed := [] }

/-! ## Concrete fixtures used by witnesses and counterexamples -/

/-- An app instance for which every collaborator call succeeds. -/
def okAppSpec (appId : Nat) (path : String) : AppSpec :=
  { existsLocal := true, getSchema := Option.none, getSettings := Option.none,
    validateContext := Option.none, validatePlatform := Option.none,
    supportedEngines := [], validateSettings := Option.none, path := path,
    getApplication := Except.ok { id := appId }, setupFrameworks := Option.none,
    initApp := Option.none }

/-- An app instance whose settings fail schema validation with a
`TankError`. -/
def badSettingsSpec : AppSpec :=
  { okAppSpec 9 "/apps/bad" with
    validateSettings := some (PyExc.tankError "Missing required setting") }

/-- An app instance whose `init_app` raises. -/
def initFailsSpec : AppSpec :=
  { okAppSpec 8 "/apps/x" with
    initApp := some (PyExc.otherError "boom in init_app") }

/-- Environment declaring one good app and one app with bad settings. -/
def envMixed : List (String × AppSpec) :=
  [("good", okAppSpec 1 "/apps/good"), ("bad", badSettingsSpec)]

/-- Environment declaring two good apps, instance names "b" then "a". -/
def envOrder : List (String × AppSpec) :=
  [("b", okAppSpec 2 "/apps/b"), ("a", okAppSpec 1 "/apps/a")]

/-- Environment declaring a single app whose `init_app` raises. -/
def envFailInit : List (String × AppSpec) :=
  [("x", initFailsSpec)]

/-- An engine construction in which every collaborator call succeeds and
no apps are declared. -/
def okInitBehavior : EngineInitBehavior :=
  { preamble := Option.none, validateContext := Option.none,
    validatePlatform := Option.none, validateSettings := Option.none,
    setupFrameworks := Option.none, initEngine := Option.none,
    engineName := "tk-maya", envApps := [], postAppInit := Option.none,
    initCompleteHook := Option.none }

/-- A `start_engine` call for which every stage succeeds. -/
def okStartBehavior : StartEngineBehavior :=
  { engineName := "tk-maya", isShotgunEngine := false,
    pickEnvHook := Except.ok (some "shot_step"), envLoad := Option.none,
    envEngines := ["tk-maya"], engineExistsLocal := true,
    loadPlugin := Option.none, init := okInitBehavior }

/-- Module state with a current engine already registered. -/
def gWithEngine : GlobalState :=
  { currentEngine := some (engineOfLoad initLoadState) }

/-- Module state with no current engine (interpreter start, line 488). -/
def gIdle : GlobalState :=
  { currentEngine := Option.none }

/-- An engine whose currently-initializing-app marker is set (as during
an `init_app` call). -/
def engMarked : EngineObj :=
  { applications := [], commands := fun _ => Option.none,
    currentlyInitializingApp := some { id := 7 }, logCalls := [] }

/-- A middle section of `add_engine` that emits nothing and succeeds. -/
def emptyMiddle : AddEngineMiddle :=
  { logs := [], docUrl := Option.none, outcome := Option.none }

/-- A middle section of `add_engine` that raises a `TankError` (e.g. the
engine already exists in the environment, line 72). -/
def tankErrorMiddle : AddEngineMiddle :=
  { logs := [], docUrl := Option.none,
    outcome := some (PyExc.tankError "Engine tk-maya exists in the environment!") }

/-! ## Helper lemmas -/

theorem pyGet_foldl {V : Type} (l : List (String × V)) (k : String)
    (a : Option V) :
    l.foldl (fun acc p => if p.fst = k then some p.snd else acc) a =
      match pyGet l k with
      | some v => some v
      | Option.none => a := by
  induction l generalizing a with
  | nil => simp [pyGet]
  | cons p r ih =>
    simp only [pyGet, List.foldl_cons] at *
    rw [ih, ih (if p.fst = k then some p.snd else Option.none)]
    by_cases hp : p.fst = k <;>
      cases h : List.foldl
          (fun acc p => if p.fst = k then some p.snd else acc) Option.none r <;>
      simp [hp, h]

theorem pyGet_append {V : Type} (l₁ l₂ : List (String × V)) (k : String) :
    pyGet (l₁ ++ l₂) k =
      match pyGet l₂ k with
      | some v => some v
      | Option.none => pyGet l₁ k := by
  simp only [pyGet, List.foldl_append]
  exact pyGet_foldl l₂ k _

theorem pyGet_eq_none_of_not_mem {V : Type} (l : List (String × V))
    (k : String) (h : k ∉ l.map Prod.fst) : pyGet l k = Option.none := by
  induction l with
  | nil => rfl
  | cons p r ih =>
    simp only [List.map_cons, List.mem_cons, not_or] at h
    have hcons : pyGet (p :: r) k = pyGet ([p] ++ r) k := by simp
    have hp : ¬ p.fst = k := fun hk => h.1 hk.symm
    rw [hcons, pyGet_append, ih h.2]
    simp [pyGet, hp]

theorem pyGet_singleton_eq {V : Type} (k : String) (v : V) :
    pyGet [(k, v)] k = some v := by
  simp [pyGet]

/-- Normal form of one loop iteration: the applications and log fields
only grow by this iteration's contribution, and the marker is reset
exactly when the `init_app` `try`/`finally` runs. -/
theorem processApp_fields (engineName : String) (st : LoadState)
    (p : String × AppSpec) :
    processApp engineName st p =
      { applications := st.applications ++ appEntry engineName p,
        currentlyInitializingApp :=
          if reachesInitApp engineName p.snd then Option.none
          else st.currentlyInitializingApp,
        log := st.log ++ appLogEvents engineName p } := by
  unfold processApp appEntry appLogEvents appOutcome reachesInitApp
  cases hloc : p.snd.existsLocal with
  | false => simp
  | true =>
    simp only [Bool.not_true, Bool.false_eq_true, if_false, Bool.true_and]
    cases hval : appValidationFailure engineName p.snd with
    | some e => cases he : e.isTankError <;> simp [he]
    | none =>
      simp only [Option.isNone_none, Bool.true_and]
      cases happ : p.snd.getApplication with
      | error e => simp
      | ok app =>
        simp only [Bool.true_and]
        cases hfw : p.snd.setupFrameworks with
        | some e => simp
        | none =>
          simp only [Option.isNone_none, if_true]
          cases hinit : p.snd.initApp with
          | some e => simp
          | none => simp

theorem loadApps_applications (engineName : String)
    (l : List (String × AppSpec)) (st : LoadState) :
    (loadApps engineName l st).applications =
      st.applications ++ l.flatMap (appEntry engineName) := by
  induction l generalizing st with
  | nil => simp [loadApps]
  | cons p r ih =>
    simp only [loadApps, List.foldl_cons, List.flatMap_cons] at *
    rw [ih, processApp_fields]
    simp

theorem loadApps_log (engineName : String) (l : List (String × AppSpec))
    (st : LoadState) :
    (loadApps engineName l st).log = st.log ++ l.flatMap (appLogEvents engineName) := by
  induction l generalizing st with
  | nil => simp [loadApps]
  | cons p r ih =>
    simp only [loadApps, List.foldl_cons, List.flatMap_cons] at *
    rw [ih, processApp_fields]
    simp

theorem loadApps_marker (engineName : String) (l : List (String × AppSpec))
    (st : LoadState) (h : st.currentlyInitializingApp = Option.none) :
    (loadApps engineName l st).currentlyInitializingApp = Option.none := by
  induction l generalizing st with
  | nil => simpa [loadApps] using h
  | cons p r ih =>
    simp only [loadApps, List.foldl_cons] at *
    apply ih
    rw [processApp_fields]
    cases hr : reachesInitApp engineName p.snd <;> simp [hr, h]

theorem appOutcome_eq_none_iff (engineName : String) (s : AppSpec) :
    appOutcome engineName s = Option.none ↔ appFails engineName s = true := by
  unfold appOutcome appFails
  cases hloc : s.existsLocal <;>
    cases hval : appValidationFailure engineName s <;>
    cases happ : s.getApplication <;>
    cases hfw : s.setupFrameworks <;>
    cases hinit : s.initApp <;>
    simp

theorem appLogEvents_ne_nil_of_fails (engineName : String)
    (p : String × AppSpec) (h : appFails engineName p.snd = true) :
    appLogEvents engineName p ≠ [] := by
  unfold appFails at h
  unfold appLogEvents
  cases hloc : p.snd.existsLocal <;>
    cases hval : appValidationFailure engineName p.snd <;>
    cases happ : p.snd.getApplication <;>
    cases hfw : p.snd.setupFrameworks <;>
    cases hinit : p.snd.initApp <;>
    simp_all <;> split <;> simp

/-- The keys stored by a list of loop iterations are among the declared
instance names. -/
theorem appEntry_keys_sub (engineName : String) (l : List (String × AppSpec)) :
    (l.flatMap (appEntry engineName)).map Prod.fst ⊆ l.map Prod.fst := by
  induction l with
  | nil => simp
  | cons p r ih =>
    simp only [List.flatMap_cons, List.map_append, List.map_cons]
    intro k hk
    simp only [List.mem_append] at hk
    rcases hk with hk | hk
    · unfold appEntry at hk
      cases h : appOutcome engineName p.snd <;> simp [h] at hk
      simp [hk]
    · exact List.mem_cons_of_mem _ (ih hk)

/-- Looking up an app instance name in the final applications dict yields
exactly this instance's outcome, provided instance names are unique. -/
theorem pyGet_flatMap_appEntry (engineName : String)
    (l : List (String × AppSpec)) (name : String) (s : AppSpec)
    (hmem : (name, s) ∈ l) (hnd : (l.map Prod.fst).Nodup) :
    pyGet (l.flatMap (appEntry engineName)) name = appOutcome engineName s := by
  induction l with
  | nil => cases hmem
  | cons p r ih =>
    simp only [List.map_cons, List.nodup_cons] at hnd
    rcases List.mem_cons.mp hmem with heq | hmemr
    · subst heq
      simp only [List.flatMap_cons, pyGet_append]
      have hrest : pyGet (r.flatMap (appEntry engineName)) name = Option.none := by
        apply pyGet_eq_none_of_not_mem
        intro hk
        exact hnd.1 (appEntry_keys_sub engineName r hk)
      rw [hrest]
      unfold appEntry
      cases h : appOutcome engineName s
      · rfl
      · simp [pyGet]
    · have hne : ¬ p.fst = name := by
        intro he
        exact hnd.1 (he ▸ (List.mem_map_of_mem Prod.fst hmemr))
      simp only [List.flatMap_cons, pyGet_append]
      rw [ih hmemr hnd.2]
      cases h : appOutcome engineName s
      · unfold appEntry
        cases h2 : appOutcome engineName p.snd
        · rfl
        · simp [pyGet, hne]
      · rfl

/-! ## Claim C1 -/

/-- Claim C1: for every process state in which a current engine is
already set, `start_engine` (with any engine name and collaborator
behavior) raises a `TankError` and leaves the module state — in
particular the current-engine pointer — unchanged, still holding the
previously current engine. -/
theorem startEngine_fails_when_engine_current (b : StartEngineBehavior)
    (g : GlobalState) (eng : EngineObj) (h : g.currentEngine = some eng) :
    start_engine b g =
      (Except.error (PyExc.tankError engineAlreadyRunningMsg), g) ∧
    (start_engine b g).snd.currentEngine = some eng := by
  have hc : current_engine g = some eng := h
  unfold start_engine
  rw [hc]
  exact ⟨rfl, h⟩

/-- Witness for C1 at a concrete state holding an engine. -/
theorem startEngine_fails_when_engine_current_witness :
    start_engine okStartBehavior gWithEngine =
      (Except.error (PyExc.tankError engineAlreadyRunningMsg), gWithEngine) :=
  (startEngine_fails_when_engine_current okStartBehavior gWithEngine
    (engineOfLoad initLoadState) rfl).1

/-! ## Claim C3 -/

theorem engineInit_error_of_validation (b : EngineInitBehavior)
    (e : PyExc) (hp : b.preamble = Option.none)
    (hv : firstEngineValidationFailure b = some e) :
    engineInit b = Except.error e := by
  unfold firstEngineValidationFailure at hv
  unfold engineInit
  rw [hp]
  cases h1 : b.validateContext with
  | some e1 => rw [h1] at hv; cases hv; rfl
  | none =>
    rw [h1] at hv
    simp only [Option.none_orElse] at hv
    cases h2 : b.validatePlatform with
    | some e2 => rw [h2] at hv; cases hv; rfl
    | none =>
      rw [h2] at hv
      simp only [Option.none_orElse] at hv
      rw [hv]

theorem start_engine_idle_char (b : StartEngineBehavior) (g : GlobalState)
    (h : g.currentEngine = Option.none) :
    (∃ e, start_engine b g = (Except.error e, g)) ∨
    (∃ obj, engineInit b.init = Except.ok obj ∧
      start_engine b g = (Except.ok obj, { currentEngine := some obj })) := by
  have hc : current_engine g = Option.none := h
  unfold start_engine
  rw [hc]
  cases hpe : pickEnvironment b with
  | error e => exact Or.inl ⟨e, rfl⟩
  | ok n =>
    cases henv : b.envLoad with
    | some e => exact Or.inl ⟨e, rfl⟩
    | none =>
      by_cases hmem : b.engineName ∈ b.envEngines
      · rw [if_pos hmem]
        cases hex : b.engineExistsLocal with
        | false => simp only [Bool.false_eq_true, if_false]; exact Or.inl ⟨_, rfl⟩
        | true =>
          simp only [if_true]
          cases hlp : b.loadPlugin with
          | some e => exact Or.inl ⟨e, rfl⟩
          | none =>
            cases hin : engineInit b.init with
            | error e => exact Or.inl ⟨e, rfl⟩
            | ok obj => exact Or.inr ⟨obj, rfl, by simp [set_current_engine]⟩
      · rw [if_neg hmem]
        exact Or.inl ⟨_, rfl⟩

/-- Claim C3: `start_engine` is atomic with respect to the current-engine
singleton.  From an idle state: (1) whenever the call raises, the module
state is unchanged, so the current-engine pointer stays null — no partial
engine state is retained; (2) if the stages before construction succeed
and one of the constructor validations fails with exception `e` (the
`validation` module raises the typed `TankError` family), the call raises
exactly that exception and the state is unchanged; (3) on success the
returned engine object is installed as the current engine. -/
theorem startEngine_atomic (b : StartEngineBehavior) (g : GlobalState)
    (h : g.currentEngine = Option.none) :
    (∀ e, (start_engine b g).fst = Except.error e →
      (start_engine b g).snd = g) ∧
    (∀ e, preValidationOk b → firstEngineValidationFailure b.init = some e →
      start_engine b g = (Except.error e, g)) ∧
    (∀ obj, (start_engine b g).fst = Except.ok obj →
      (start_engine b g).snd.currentEngine = some obj) := by
  refine ⟨?_, ?_, ?_⟩
  · intro e he
    rcases start_engine_idle_char b g h with ⟨e', hch⟩ | ⟨obj, _, hch⟩
    · rw [hch]
    · rw [hch] at he ⊢
      cases he
  · intro e hpre hv
    obtain ⟨⟨n, hpe⟩, henv, hmem, hex, hlp, hpre'⟩ := hpre
    have hinit : engineInit b.init = Except.error e :=
      engineInit_error_of_validation b.init e hpre' hv
    have hc : current_engine g = Option.none := h
    unfold start_engine
    rw [hc, hpe, henv, if_pos hmem, hex, if_pos rfl, hlp, hinit]
  · intro obj hobj
    rcases start_engine_idle_char b g h with ⟨e', hch⟩ | ⟨obj', _, hch⟩
    · rw [hch] at hobj ⊢
      cases hobj
    · rw [hch] at hobj ⊢
      cases hobj
      rfl

/-- Witness for C3: a fully successful start installs the constructed
engine as the current engine. -/
theorem startEngine_atomic_witness :
    (start_engine okStartBehavior gIdle).snd.currentEngine =
      some (engineOfLoad (loadApps "tk-maya" [] initLoadState)) :=
  (startEngine_atomic okStartBehavior gIdle rfl).2.2
    (engineOfLoad (loadApps "tk-maya" [] initLoadState)) rfl

/-! ## Claim C2 -/

theorem appOutcome_getApplication (engineName : String) (s : AppSpec)
    (app : App) (h : appOutcome engineName s = some app) :
    s.getApplication = Except.ok app := by
  unfold appOutcome at h
  cases hloc : s.existsLocal <;> rw [hloc] at h
  · cases h
  · simp only [Bool.not_true, Bool.false_eq_true, if_false] at h
    cases hval : appValidationFailure engineName s <;> rw [hval] at h
    · cases happ : s.getApplication <;> rw [happ] at h
      · cases h
      · cases hfw : s.setupFrameworks <;> rw [hfw] at h
        · cases hinit : s.initApp <;> rw [hinit] at h
          · cases h
            rfl
          · cases h
        · cases h
    · cases h

/-- Claim C2: in any environment, an app that fails any validation step
(or whose construction, framework setup or `init_app` raises) is logged
and absent from the applications mapping after `__load_apps`, while every
app whose stages all succeed is present, regardless of what happens to
its siblings; the loop itself never propagates a per-app failure
(`loadApps` is a total function). -/
theorem loadApps_partial_failure_isolation (engineName : String)
    (l : List (String × AppSpec)) (name : String) (s : AppSpec)
    (hnd : (l.map Prod.fst).Nodup) (hmem : (name, s) ∈ l) :
    (appFails engineName s = true →
      pyGet (loadApps engineName l initLoadState).applications name =
        Option.none ∧
      appLogEvents engineName (name, s) ≠ [] ∧
      ∀ ev ∈ appLogEvents engineName (name, s),
        ev ∈ (loadApps engineName l initLoadState).log) ∧
    (appFails engineName s = false →
      ∀ app, s.getApplication = Except.ok app →
        pyGet (loadApps engineName l initLoadState).applications name =
          some app) := by
  constructor
  · intro hf
    refine ⟨?_, appLogEvents_ne_nil_of_fails engineName (name, s) hf, ?_⟩
    · rw [loadApps_applications]
      simp only [initLoadState, List.nil_append]
      rw [pyGet_flatMap_appEntry engineName l name s hmem hnd]
      exact (appOutcome_eq_none_iff engineName s).mpr hf
    · intro ev hev
      rw [loadApps_log]
      simp only [initLoadState, List.nil_append]
      exact List.mem_flatMap.mpr ⟨(name, s), hmem, hev⟩
  · intro hf app happ
    rw [loadApps_applications]
    simp only [initLoadState, List.nil_append]
    rw [pyGet_flatMap_appEntry engineName l name s hmem hnd]
    cases hout : appOutcome engineName s with
    | none =>
      rw [(appOutcome_eq_none_iff engineName s).mp hout] at hf
      cases hf
    | some app' =>
      have := appOutcome_getApplication engineName s app' hout
      rw [happ] at this
      cases this
      rfl

/-- Witness for C2 on a two-app environment: the app with invalid
settings is skipped and logged, the valid one is loaded. -/
theorem loadApps_partial_failure_isolation_witness :
    pyGet (loadApps "tk-maya" envMixed initLoadState).applications "bad" =
      Option.none ∧
    LogCall.appConfigError "bad" (PyExc.tankError "Missing required setting") ∈
      (loadApps "tk-maya" envMixed initLoadState).log ∧
    pyGet (loadApps "tk-maya" envMixed initLoadState).applications "good" =
      some { id := 1 } := by
  have hbad := (loadApps_partial_failure_isolation "tk-maya" envMixed "bad"
    badSettingsSpec (by decide)
    (List.Mem.tail _ (List.Mem.head _))).1 (by decide)
  have hgood := (loadApps_partial_failure_isolation "tk-maya" envMixed "good"
    (okAppSpec 1 "/apps/good") (by decide) (List.Mem.head _)).2 (by decide)
    { id := 1 } rfl
  refine ⟨hbad.1, ?_, hgood⟩
  exact hbad.2.2 _ (by decide)

/-! ## Claim C4 -/

theorem destroyFrameworksLoop_eq_map (l : List String) :
    destroyFrameworksLoop l = l.map TeardownEvent.frameworkDestroyed := by
  induction l with
  | nil => rfl
  | cons f r ih => simp [destroyFrameworksLoop, ih]

theorem destroyAppsLoop_eq_flatMap (l : List String) :
    destroyAppsLoop l =
      l.flatMap (fun a =>
        [TeardownEvent.appFrameworksDestroyed a, TeardownEvent.appDestroyed a]) := by
  induction l with
  | nil => rfl
  | cons a r ih => simp [destroyAppsLoop, ih]

theorem destroyFrameworksLoop_count_fw (l : List String) (f : String) :
    (destroyFrameworksLoop l).count (TeardownEvent.frameworkDestroyed f) =
      l.count f := by
  induction l with
  | nil => rfl
  | cons x r ih => simp [destroyFrameworksLoop, List.count_cons, ih]

theorem destroyFrameworksLoop_count_appFw (l : List String) (a : String) :
    (destroyFrameworksLoop l).count (TeardownEvent.appFrameworksDestroyed a) = 0 := by
  induction l with
  | nil => rfl
  | cons x r ih => simp [destroyFrameworksLoop, List.count_cons, ih]

theorem destroyFrameworksLoop_count_app (l : List String) (a : String) :
    (destroyFrameworksLoop l).count (TeardownEvent.appDestroyed a) = 0 := by
  induction l with
  | nil => rfl
  | cons x r ih => simp [destroyFrameworksLoop, List.count_cons, ih]

theorem destroyAppsLoop_count_app (l : List String) (a : String) :
    (destroyAppsLoop l).count (TeardownEvent.appDestroyed a) = l.count a := by
  induction l with
  | nil => rfl
  | cons x r ih => simp [destroyAppsLoop, List.count_cons, ih]

theorem destroyAppsLoop_count_appFw (l : List String) (a : String) :
    (destroyAppsLoop l).count (TeardownEvent.appFrameworksDestroyed a) =
      l.count a := by
  induction l with
  | nil => rfl
  | cons x r ih => simp [destroyAppsLoop, List.count_cons, ih]

theorem destroyAppsLoop_count_fw (l : List String) (f : String) :
    (destroyAppsLoop l).count (TeardownEvent.frameworkDestroyed f) = 0 := by
  induction l with
  | nil => rfl
  | cons x r ih => simp [destroyAppsLoop, List.count_cons, ih]

/-- Claim C4: `destroy()` tears down in order — every engine-level
framework first, then for each loaded app that app's frameworks followed
by the app's teardown hook, then `destroy_engine`, and finally the
current-engine pointer is cleared; under the dict-key uniqueness of the
loaded apps and frameworks, each app's and framework's teardown call
appears exactly once in the trace. -/
theorem engineDestroy_order_and_once (frameworks apps : List String)
    (g : GlobalState) (hfw : frameworks.Nodup) (hap : apps.Nodup) :
    (engineDestroy frameworks apps g).snd.currentEngine = Option.none ∧
    (engineDestroy frameworks apps g).fst =
      frameworks.map TeardownEvent.frameworkDestroyed ++
        apps.flatMap (fun a =>
          [TeardownEvent.appFrameworksDestroyed a,
            TeardownEvent.appDestroyed a]) ++
        [TeardownEvent.engineDestroyed] ∧
    (engineDestroy frameworks apps g).fst.getLast? =
      some TeardownEvent.engineDestroyed ∧
    (∀ f ∈ frameworks,
      (engineDestroy frameworks apps g).fst.count
        (TeardownEvent.frameworkDestroyed f) = 1) ∧
    (∀ a ∈ apps,
      (engineDestroy frameworks apps g).fst.count
          (TeardownEvent.appFrameworksDestroyed a) = 1 ∧
        (engineDestroy frameworks apps g).fst.count
          (TeardownEvent.appDestroyed a) = 1) := by
  refine ⟨rfl, ?_, ?_, ?_, ?_⟩
  · simp [engineDestroy, destroyFrameworksLoop_eq_map, destroyAppsLoop_eq_flatMap]
  · exact List.getLast?_append_of_ne_nil _ (by simp)
  · intro f hf
    simp only [engineDestroy, List.count_append]
    rw [destroyFrameworksLoop_count_fw, destroyAppsLoop_count_fw,
      List.count_eq_one_of_mem hfw hf]
    simp [List.count_cons]
  · intro a ha
    constructor
    · simp only [engineDestroy, List.count_append]
      rw [destroyFrameworksLoop_count_appFw, destroyAppsLoop_count_appFw,
        List.count_eq_one_of_mem hap ha]
      simp [List.count_cons]
    · simp only [engineDestroy, List.count_append]
      rw [destroyFrameworksLoop_count_app, destroyAppsLoop_count_app,
        List.count_eq_one_of_mem hap ha]
      simp [List.count_cons]

/-- Witness for C4 on a concrete engine with two frameworks and two
loaded apps. -/
theorem engineDestroy_order_and_once_witness :
    (engineDestroy ["tk-framework-widget", "tk-framework-core"]
        ["publish", "loader"] gWithEngine).snd.currentEngine = Option.none ∧
    (engineDestroy ["tk-framework-widget", "tk-framework-core"]
        ["publish", "loader"] gWithEngine).fst.count
      (TeardownEvent.appDestroyed "publish") = 1 := by
  have h := engineDestroy_order_and_once
    ["tk-framework-widget", "tk-framework-core"] ["publish", "loader"]
    gWithEngine (by decide) (by decide)
  exact ⟨h.1, (h.2.2.2.2 "publish" (List.Mem.head _)).2⟩

/-! ## Claim C5 -/

/-- Claim C5: `register_command` stores `{callback, properties}` in the
commands dict under `name`; while an app is initializing, the properties
bag is tagged with an `"app"` entry referencing that app (and left
untouched otherwise); registering the same name twice keeps exactly the
second registration (last write wins, no error), and no other name is
affected. -/
theorem registerCommand_tag_and_lastWriteWins (eng : EngineObj)
    (name : String) (cb1 cb2 : Nat)
    (p1 p2 : Option (List (String × PropVal))) :
    ((register_command (register_command eng name cb1 p1) name cb2 p2).commands
        name ≠ Option.none) ∧
    (∀ entry,
      (register_command (register_command eng name cb1 p1) name cb2 p2).commands
          name = some entry →
        entry.callback = cb2 ∧
        (∀ a, eng.currentlyInitializingApp = some a →
          pyGet entry.properties "app" = some (PropVal.appRef a)) ∧
        (eng.currentlyInitializingApp = Option.none →
          entry.properties = p2.getD [])) ∧
    (∀ n, n ≠ name →
      (register_command (register_command eng name cb1 p1) name cb2 p2).commands
          n = eng.commands n) := by
  refine ⟨?_, ?_, ?_⟩
  · simp [register_command]
  · intro entry hentry
    simp only [register_command, if_pos rfl] at hentry
    cases hentry
    refine ⟨rfl, ?_, ?_⟩
    · intro a ha
      rw [ha]
      simp only [pySet, pyGet_append, pyGet_singleton_eq]
    · intro ha
      rw [ha]
  · intro n hn
    simp [register_command, hn]

/-- Witness for C5: with the marker set to app 7, the properties bag of
the retained (second) registration carries the `"app"` tag. -/
theorem registerCommand_tag_and_lastWriteWins_witness :
    pyGet (pySet ([] : List (String × PropVal)) "app"
        (PropVal.appRef { id := 7 })) "app" =
      some (PropVal.appRef { id := 7 }) := by
  have h := (registerCommand_tag_and_lastWriteWins engMarked "about" 1 2
    (some []) Option.none).2.1
    { callback := 2,
      properties := pySet [] "app" (PropVal.appRef { id := 7 }) } rfl
  exact h.2.1 { id := 7 } rfl

/-! ## Claim C6 -/

/-- Claim C6: for every settings dict, key and default, `get_setting`
returns the configured value when the key is present and the supplied
default otherwise (`PyVal.pyNone` when no default is passed, Python's
`None`); being a total function over the dict content, it raises for no
missing key. -/
theorem getSetting_returns_value_or_default
    (settings : List (String × PyVal)) (key : String) (dflt : PyVal) :
    (∀ v, pyGet settings key = some v → get_setting settings key dflt = v) ∧
    (pyGet settings key = Option.none →
      get_setting settings key dflt = dflt) ∧
    (pyGet settings key = Option.none →
      get_setting settings key PyVal.pyNone = PyVal.pyNone) := by
  refine ⟨?_, ?_, ?_⟩ <;> intro h <;> unfold get_setting <;>
    first
      | (intro hv; rw [hv]; rfl)
      | (rw [h]; rfl)

/-- Witness for C6 on a concrete settings dict. -/
theorem getSetting_returns_value_or_default_witness :
    get_setting [("template_name", PyVal.pyStr "maya_shot_work")]
        "template_name" PyVal.pyNone = PyVal.pyStr "maya_shot_work" ∧
    get_setting [("template_name", PyVal.pyStr "maya_shot_work")]
        "publish_type" (PyVal.pyStr "TankPublishedFile") =
      PyVal.pyStr "TankPublishedFile" := by
  refine ⟨?_, ?_⟩
  · exact (getSetting_returns_value_or_default
      [("template_name", PyVal.pyStr "maya_shot_work")] "template_name"
      PyVal.pyNone).1 (PyVal.pyStr "maya_shot_work") (by decide)
  · exact (getSetting_returns_value_or_default
      [("template_name", PyVal.pyStr "maya_shot_work")] "publish_type"
      (PyVal.pyStr "TankPublishedFile")).2.1 (by decide)

/-! ## Claim C7 -/

/-- Claim C7 is a code bug: `Engine.log_error` at line 281 reads
`sys.stderr("Error: %s\n" % msg)` — it calls the `sys.stderr` file
object instead of its `write` method, so instead of performing the raw
standard-error write the comment above it and the spec describe, every
call raises `TypeError` and writes nothing.  Evaluated here at the
failing input `msg = "boom"`, against the intended behavior
(`log_error_spec`). -/
theorem logError_raises_typeError :
    log_error "boom" =
      Except.error (PyExc.otherError "TypeError: file object is not callable") ∧
    log_error_spec "boom" = Except.ok ["Error: boom\n"] ∧
    log_error "boom" ≠ log_error_spec "boom" := by
  refine ⟨rfl, rfl, ?_⟩
  simp [log_error, log_error_spec, pyCall]

/-! ## Claim C8 -/

theorem completionLogs_getLast (u : Option String) :
    (completionLogs u).getLast? = some (infoLine "") := by
  cases u <;> rfl

theorem completionLogs_ne_nil (u : Option String) :
    completionLogs u ≠ [] := by
  cases u <;> simp [completionLogs]

theorem getLast_append_completion (l : List LogLine) (u : Option String) :
    (l ++ completionLogs u).getLast? = some (infoLine "") := by
  rw [List.getLast?_append_of_ne_nil _ (completionLogs_ne_nil u)]
  exact completionLogs_getLast u

theorem getLast_append_singleton {α : Type} (l : List α) (a : α) :
    (l ++ [a]).getLast? = some a := by
  rw [List.getLast?_append_of_ne_nil _ (by simp)]
  rfl

/-- Claim C8 counterexample: invoked with a wrong argument count (here a
bare `install_engine.py` with no arguments), the script prints the usage
text to stdout, emits no line at all through the logging channel, and
exits 0 — refuting "always emits a final log line" for this invocation
(the exit-code part is not violated: the usage path is a normal
return). -/
theorem installEngine_usage_no_log :
    (installEngineMain ["install_engine.py"] emptyMiddle).logs = [] ∧
    (installEngineMain ["install_engine.py"] emptyMiddle).exitCode = 0 ∧
    (installEngineMain ["install_engine.py"] emptyMiddle).printed =
      [usageText "install_engine.py"] :=
  ⟨rfl, rfl, rfl⟩

/-- Claim C8 (amended): with exactly three operands the script exits 0 on
success and 1 on any error, and then always ends its log output with a
final line — `log.info("")` on success, a one-line `log.error` report for
a `TankError`, a stack-trace-carrying `log.exception` report for any
other exception; with any other argument count it prints the usage text
and exits 0 without emitting any log line. -/
theorem installEngine_exit_codes_and_logs (argv : List String)
    (m : AddEngineMiddle) :
    (argv.length ≠ 4 →
      installEngineMain argv m =
        { exitCode := 0, logs := [],
          printed := [usageText (argv.headD "")] }) ∧
    (argv.length = 4 → m.outcome = Option.none →
      (installEngineMain argv m).exitCode = 0 ∧
      (installEngineMain argv m).logs.getLast? = some (infoLine "")) ∧
    (∀ e, argv.length = 4 → m.outcome = some e → e.isTankError = true →
      (installEngineMain argv m).exitCode = 1 ∧
      (installEngineMain argv m).logs.getLast? =
        some { level := "ERROR", message := "An error occurred: " ++ e.msg,
               withTraceback := false }) ∧
    (∀ e, argv.length = 4 → m.outcome = some e → e.isTankError = false →
      (installEngineMain argv m).exitCode = 1 ∧
      (installEngineMain argv m).logs.getLast? =
        some { level := "ERROR", message := "An error occurred: " ++ e.msg,
               withTraceback := true }) := by
  refine ⟨?_, ?_, ?_, ?_⟩
  · intro h4
    simp [installEngineMain, h4]
  · intro h4 hout
    have hrun : installEngineMain argv m =
        { exitCode := 0,
          logs := welcomeLogs ++ m.logs ++ completionLogs m.docUrl,
          printed := [] } := by
      simp [installEngineMain, h4, add_engine, hout, List.append_assoc]
    rw [hrun]
    exact ⟨rfl, getLast_append_completion (welcomeLogs ++ m.logs) m.docUrl⟩
  · intro e h4 hout hte
    have hrun : installEngineMain argv m =
        { exitCode := 1,
          logs := welcomeLogs ++ m.logs ++
            [{ level := "ERROR", message := "An error occurred: " ++ e.msg,
               withTraceback := false }],
          printed := [] } := by
      simp [installEngineMain, h4, add_engine, hout, hte, List.append_assoc]
    rw [hrun]
    exact ⟨rfl, getLast_append_singleton (welcomeLogs ++ m.logs) _⟩
  · intro e h4 hout hte
    have hrun : installEngineMain argv m =
        { exitCode := 1,
          logs := welcomeLogs ++ m.logs ++
            [{ level := "ERROR", message := "An error occurred: " ++ e.msg,
               withTraceback := true }],
          printed := [] } := by
      simp [installEngineMain, h4, add_engine, hout, hte, List.append_assoc]
    rw [hrun]
    exact ⟨rfl, getLast_append_singleton (welcomeLogs ++ m.logs) _⟩

/-- Witness for the amended C8 on a successful concrete run and a
`TankError` run. -/
theorem installEngine_exit_codes_and_logs_witness :
    (installEngineMain ["install_engine.py", "/mnt/shows/my_project",
        "rigging", "tk-maya"] emptyMiddle).exitCode = 0 ∧
    (installEngineMain ["install_engine.py", "/mnt/shows/my_project",
        "rigging", "tk-maya"] tankErrorMiddle).exitCode = 1 := by
  refine ⟨?_, ?_⟩
  · exact ((installEngine_exit_codes_and_logs ["install_engine.py",
      "/mnt/shows/my_project", "rigging", "tk-maya"] emptyMiddle).2.1
      rfl rfl).1
  · exact ((installEngine_exit_codes_and_logs ["install_engine.py",
      "/mnt/shows/my_project", "rigging", "tk-maya"] tankErrorMiddle).2.2.1
      (PyExc.tankError "Engine tk-maya exists in the environment!")
      rfl rfl rfl).1

/-! ## Claim C9 -/

theorem flatMap_appEntry_keys_eq_filter (engineName : String)
    (l : List (String × AppSpec)) :
    (l.flatMap (appEntry engineName)).map Prod.fst =
      (l.filter (fun p => !appFails engineName p.snd)).map Prod.fst := by
  induction l with
  | nil => rfl
  | cons p r ih =>
    simp only [List.flatMap_cons, List.map_append, List.filter_cons]
    cases hout : appOutcome engineName p.snd with
    | none =>
      have hf : appFails engineName p.snd = true :=
        (appOutcome_eq_none_iff engineName p.snd).mp hout
      simp [appEntry, hout, hf, ih]
    | some app =>
      have hf : ¬ appFails engineName p.snd = true := by
        intro hf
        rw [(appOutcome_eq_none_iff engineName p.snd).mpr hf] at hout
        cases hout
      simp only [Bool.not_eq_true] at hf
      simp [appEntry, hout, hf, ih]

/-- Claim C9 counterexample: with both declared apps loading
successfully in the order "b" then "a", the dict stores happen in load
order ["b", "a"], but enumerating the resulting CPython 2 dict (the
plain `{}` of engine.py line 42, under Python 2 hash-table iteration)
yields ["a", "b"] — so iteration order is not load order. -/
theorem appsDict_iteration_differs_from_load_order :
    (loadApps "tk-maya" envOrder initLoadState).applications.map Prod.fst =
      ["b", "a"] ∧
    py2IterKeys (py2DictOfStores
        (loadApps "tk-maya" envOrder initLoadState).applications) =
      ["a", "b"] ∧
    (["a", "b"] : List String) ≠ ["b", "a"] := by
  refine ⟨by decide, by decide, by decide⟩

/-- Claim C9 (amended): the applications mapping has unique
app-instance-name keys and holds exactly the successfully loaded apps —
the sequence of dict stores follows declaration/processing order — but
the mapping is a plain Python 2 dict, whose iteration order is a property
of the hash table and need not equal load order. -/
theorem apps_mapping_unique_keys_complete (engineName : String)
    (l : List (String × AppSpec)) (hnd : (l.map Prod.fst).Nodup) :
    ((loadApps engineName l initLoadState).applications.map Prod.fst).Nodup ∧
    (loadApps engineName l initLoadState).applications.map Prod.fst =
      (l.filter (fun p => !appFails engineName p.snd)).map Prod.fst := by
  have hkeys : (loadApps engineName l initLoadState).applications.map Prod.fst =
      (l.filter (fun p => !appFails engineName p.snd)).map Prod.fst := by
    rw [loadApps_applications]
    simp only [initLoadState, List.nil_append]
    exact flatMap_appEntry_keys_eq_filter engineName l
  refine ⟨?_, hkeys⟩
  rw [hkeys]
  exact List.Nodup.sublist (List.Sublist.map Prod.fst (List.filter_sublist l)) hnd

/-- Witness for the amended C9 on the concrete two-app environment. -/
theorem apps_mapping_unique_keys_complete_witness :
    ((loadApps "tk-maya" envOrder initLoadState).applications.map
        Prod.fst).Nodup ∧
    (loadApps "tk-maya" envOrder initLoadState).applications.map Prod.fst =
      (envOrder.filter (fun p => !appFails "tk-maya" p.snd)).map Prod.fst :=
  apps_mapping_unique_keys_complete "tk-maya" envOrder (by decide)

/-! ## Claim C10 -/

/-- Claim C10: the currently-initializing-app marker starts as `None`
and is `None` again after every prefix of the app-loading loop — the
`try`/`finally` resets it whether `init_app` returns or raises — so any
`register_command` call made after loading completes stores the caller's
properties bag unchanged, with no `"app"` tag added. -/
theorem marker_none_after_loadApps (engineName : String)
    (l : List (String × AppSpec)) (st : LoadState)
    (h : st.currentlyInitializingApp = Option.none) :
    (∀ l₁ l₂, l = l₁ ++ l₂ →
      (loadApps engineName l₁ st).currentlyInitializingApp = Option.none) ∧
    (∀ name cb props,
      (register_command (engineOfLoad (loadApps engineName l st)) name cb
          props).commands name =
        some { callback := cb, properties := props.getD [] }) := by
  constructor
  · intro l₁ l₂ _
    exact loadApps_marker engineName l₁ st h
  · intro name cb props
    have hm : (loadApps engineName l st).currentlyInitializingApp =
        Option.none := loadApps_marker engineName l st h
    simp [register_command, engineOfLoad, hm]

/-- Witness for C10: after loading an environment whose only app raises
in `init_app`, a registered command carries no `"app"` tag. -/
theorem marker_none_after_loadApps_witness :
    (register_command (engineOfLoad
        (loadApps "tk-maya" envFailInit initLoadState)) "open" 3
        Option.none).commands "open" =
      some { callback := 3, properties := [] } :=
  (marker_none_after_loadApps "tk-maya" envFailInit initLoadState rfl).2
    "open" 3 Option.none

end Tank
